import Mathlib

/-
Shallow embedding of src/src/download_data/ssl4eo_downloader.py
(yghlc/SSL4EO-S12): the date-window construction, the
overlap-avoidance samplers (rtree and grid variants), the catalog
filter, the patch cropping helpers, and the per-index worker protocol.

Modelling conventions:
- A calendar date is its day number (an integer, days since
  1970-01-01); daysFromCivil and civilFromDays convert between day
  numbers and Gregorian (year, month, day) triples, and date2str
  renders the YYYY-MM-DD form produced by strftime in the source.
- Geographic coordinates are (lon, lat) pairs over the rationals; the
  float arithmetic of the source is modelled exactly over the
  rationals, and the distance computation (which multiplies by pi)
  over the reals.
- The remote catalog download for one candidate (filter_collection
  followed by get_patch over every date window, all-or-nothing since
  any exception aborts the whole list) is abstracted as a boolean
  oracle fetch : List Period -> coordinate -> Bool.  Patch pixel
  payloads are irrelevant to the claims, so the sampler embeddings
  return only the center coordinate.
- The unbounded recursion of get_random_patches_rtree and
  get_random_patches_grid is modelled as a big-step relation over the
  stream of candidates that sampler.sample_point() would produce; each
  constructor mirrors one control path through the Python body.
-/

namespace SSL4EO

/-- Gregorian civil date to day number (days since 1970-01-01); the
standard days-from-civil algorithm.  Used to state concrete calendar
facts about get_period. -/
def daysFromCivil (y : ℤ) (m d : ℕ) : ℤ :=
  let y2 : ℤ := if m ≤ 2 then y - 1 else y
  let era : ℤ := Int.fdiv y2 400
  let yoe : ℤ := y2 - era * 400
  let mp : ℕ := (m + 9) % 12
  let doy : ℤ := ((153 * (mp : ℤ) + 2) / 5) + (d : ℤ) - 1
  let doe : ℤ := yoe * 365 + yoe / 4 - yoe / 100 + doy
  era * 146097 + doe - 719468

/-- Day number back to a Gregorian (year, month, day) triple; the
standard civil-from-days algorithm. -/
def civilFromDays (z : ℤ) : ℤ × ℕ × ℕ :=
  let z2 : ℤ := z + 719468
  let era : ℤ := Int.fdiv z2 146097
  let doe : ℤ := z2 - era * 146097
  let yoe : ℤ := (doe - doe / 1460 + doe / 36524 - doe / 146096) / 365
  let y : ℤ := yoe + era * 400
  let doy : ℤ := doe - (365 * yoe + yoe / 4 - yoe / 100)
  let mp : ℤ := (5 * doy + 2) / 153
  let d : ℤ := doy - (153 * mp + 2) / 5 + 1
  let m : ℤ := if mp < 10 then mp + 3 else mp - 9
  (if m ≤ 2 then y + 1 else y, m.toNat, d.toNat)

/-- Zero padding to two digits, as strftime does for the month and day
fields. -/
def pad2 (n : ℕ) : String := if n < 10 then "0" ++ toString n else toString n

/-- date2str from the source: strftime with the Y-m-d format, on a day
number. -/
def date2str (z : ℤ) : String :=
  let c := civilFromDays z
  toString c.1 ++ "-" ++ pad2 c.2.1 ++ "-" ++ pad2 c.2.2

/-- A two-subrange date window (date1, date2, date3, date4) as built
by get_period: the current period and the same period one year
earlier. -/
structure Period where
  date1 : ℤ
  date2 : ℤ
  date3 : ℤ
  date4 : ℤ
  deriving DecidableEq

/-- get_period from the source.  In Python, date plus-minus
timedelta(days=days/2) moves by only the whole-day part of the delta,
so the offset is days / 2 rounded down. -/
def get_period (d : ℤ) (days : ℕ) : Period :=
  let date1 := d - (days / 2 : ℕ)
  let date2 := d + (days / 2 : ℕ)
  let date3 := date1 - 365
  let date4 := date2 - 365
  ⟨date1, date2, date3, date4⟩

/-- The string quadruple actually returned by get_period in the
source: date2str applied to each of the four dates. -/
def get_period_str (d : ℤ) (days : ℕ) : String × String × String × String :=
  let p := get_period d days
  (date2str p.date1, date2str p.date2, date2str p.date3, date2str p.date4)

/-- A catalog scene: its acquisition time (day number) plus its
spatial footprint test (the filterBounds containment), abstracted as a
predicate on point coordinates. -/
structure Scene where
  time : ℤ
  containsPt : ℚ × ℚ → Bool

/-- The catalog-side failures raised by the embedded code. -/
inductive EEException where
  | noSuitableImage
  deriving DecidableEq

/-- ee.Filter.date is a half-open range; filter_collection combines
the two subranges of a window with ee.Filter.Or. -/
def inDateWindow (p : Period) (t : ℤ) : Bool :=
  (decide (p.date1 ≤ t) && decide (t < p.date2))
    || (decide (p.date3 ≤ t) && decide (t < p.date4))

/-- The combined predicate of the two filters applied by
filter_collection: spatial containment of the point and, when a period
is given, membership in the Or of the two date subranges. -/
def sceneMatches (period : Option Period) (coords : ℚ × ℚ) (s : Scene) : Bool :=
  s.containsPt coords
    && (match period with
        | some p => inDateWindow p s.time
        | none => true)

/-- filter_collection from the source: filter by the Or of the two
date subranges (when a period is given), then by containment of the
point; raise EEException when the filtered collection is empty,
otherwise return the filtered collection. -/
def filter_collection (collection : List Scene) (coords : ℚ × ℚ)
    (period : Option Period) : Except EEException (List Scene) :=
  let filtered1 :=
    match period with
    | some p => collection.filter (fun (s : Scene) => inDateWindow p s.time)
    | none => collection
  let filtered2 := filtered1.filter (fun s => s.containsPt coords)
  if filtered2.length = 0 then Except.error EEException.noSuitableImage
  else Except.ok filtered2

/-- center_crop from the source, over a list of rows (trailing array
dimensions are folded into the element type): the slice
img[t : t + h, l : l + w] with t = (H - h + 1) // 2 and
l = (W - w + 1) // 2, the width W being read off the first row as
img.shape does. -/
def center_crop {α : Type} (img : List (List α)) (out_size : ℕ × ℕ) : List (List α) :=
  let image_height := img.length
  let image_width := (img.headD []).length
  let crop_top := (image_height - out_size.1 + 1) / 2
  let crop_left := (image_width - out_size.2 + 1) / 2
  ((img.drop crop_top).take out_size.1).map (fun row => (row.drop crop_left).take out_size.2)

/-- adjust_coords from the source: coords is the pair of the top-left
and bottom-right corner (lon, lat) pairs, sizes are (height, width)
pixel pairs; int((old - new + 1) * 0.5) truncates, which for
new <= old is the same floor division the embedding uses. -/
def adjust_coords (coords : (ℚ × ℚ) × (ℚ × ℚ)) (old_size new_size : ℕ × ℕ) :
    (ℚ × ℚ) × (ℚ × ℚ) :=
  let xres : ℚ := (coords.2.1 - coords.1.1) / (old_size.2 : ℚ)
  let yres : ℚ := (coords.1.2 - coords.2.2) / (old_size.1 : ℚ)
  let xoff : ℕ := (old_size.2 - new_size.2 + 1) / 2
  let yoff : ℕ := (old_size.1 - new_size.1 + 1) / 2
  ((coords.1.1 + (xoff : ℚ) * xres, coords.1.2 - (yoff : ℚ) * yres),
   (coords.1.1 + ((xoff : ℚ) + (new_size.2 : ℚ)) * xres,
    coords.1.2 - ((yoff : ℚ) + (new_size.1 : ℚ)) * yres))

/-- GaussianSampler.deg2km with its default Earth radius 6371, as both
overlap checks call it. -/
noncomputable def deg2km (deg : ℝ) : ℝ := deg * (2 * 6371 * Real.pi / 360)

/-- The approximate planar distance in kilometers used by both overlap
checks: the per-axis absolute degree deltas converted to kilometers
and combined as a Euclidean distance. -/
noncomputable def kmDist (a b : ℚ × ℚ) : ℝ :=
  Real.sqrt (deg2km |(a.1 : ℝ) - (b.1 : ℝ)| ^ 2 + deg2km |(a.2 : ℝ) - (b.2 : ℝ)| ^ 2)

/-- The rejection test shared by both samplers: distance strictly
below 1.5 * radius / 1000 (radius in meters, distance in km). -/
def tooClose (radius : ℚ) (a b : ℚ × ℚ) : Prop :=
  kmDist a b < 1.5 * (radius : ℝ) / 1000

/-- Squared distance in plain degree units: the metric the rtree
nearest-neighbour query minimizes over the stored point boxes. -/
def sqDegDist (a b : ℚ × ℚ) : ℚ := (a.1 - b.1) ^ 2 + (a.2 - b.2) ^ 2

/-- The rtree overlap check: the loop over
rtree_obj.nearest(new_coord, num_results=1, objects=True) raises
OverlapError exactly when a stored point nearest to the candidate is
below the separation threshold. -/
def rtreeRejected (radius : ℚ) (pts : List (ℚ × ℚ)) (c : ℚ × ℚ) : Prop :=
  ∃ p ∈ pts, (∀ q ∈ pts, sqDegDist c p ≤ sqDegDist c q) ∧ tooClose radius p c

/-- The 1-degree grid bucket key
(math.floor(lon + 180), math.floor(lat + 90)). -/
def gridKey (c : ℚ × ℚ) : ℤ × ℤ := (⌊c.1 + 180⌋, ⌊c.2 + 90⌋)

/-- The grid overlap check: only stored points whose bucket equals the
candidate bucket are compared.  The per-bucket dict of sets is
flattened into the list of all stored points, bucket membership being
recomputed through gridKey. -/
def gridRejected (radius : ℚ) (pts : List (ℚ × ℚ)) (c : ℚ × ℚ) : Prop :=
  ∃ p ∈ pts, gridKey p = gridKey c ∧ tooClose radius p c

/-- get_random_patches_rtree builds its windows with days = 60. -/
def rtreePeriods (dates : List ℤ) : List Period := dates.map (fun d => get_period d 60)

/-- get_random_patches_grid builds its windows with days = 30. -/
def gridPeriods (dates : List ℤ) : List Period := dates.map (fun d => get_period d 30)

/-- get_random_patches_match builds its windows with days = 60. -/
def matchPeriods (dates : List ℤ) : List Period := dates.map (fun d => get_period d 60)

/-- get_random_patches_match: fetch the patches for the matched
coordinate over the days = 60 windows; on an EEException or HTTPError
it returns (None, coords), on success (patches, coords).  The patch
payload is abstracted to Unit. -/
def get_random_patches_match (dates : List ℤ)
    (fetch : List Period → ℚ × ℚ → Bool) (coords : ℚ × ℚ) :
    Option Unit × (ℚ × ℚ) :=
  if fetch (matchPeriods dates) coords then (some (), coords) else (none, coords)

/-- Big-step relation for get_random_patches_rtree.
RtreeRun radius fetch dates cands pts center pts2 rem holds when the
call, with the rtree holding pts and the sampler about to produce the
candidate stream cands, terminates returning center as center_coord,
leaving the rtree holding pts2 and the suffix rem of the stream not
yet consumed.  The four constructors mirror the four control paths of
the body: the overlap check either passes (the candidate is inserted)
or raises OverlapError (handled by a recursive call), and afterwards
the body in both cases downloads the candidate of THIS frame, which
either succeeds (center_coord becomes this candidate) or raises, in
which case this candidate is inserted (again, on the accept path) and
a recursive call supplies the result. -/
inductive RtreeRun (radius : ℚ) (fetch : List Period → ℚ × ℚ → Bool) (dates : List ℤ) :
    List (ℚ × ℚ) → List (ℚ × ℚ) → ℚ × ℚ → List (ℚ × ℚ) → List (ℚ × ℚ) → Prop where
  | accept_ok : ∀ c rest pts,
      ¬ rtreeRejected radius pts c →
      fetch (rtreePeriods dates) c = true →
      RtreeRun radius fetch dates (c :: rest) pts c (pts ++ [c]) rest
  | accept_fail : ∀ c rest pts center pts2 rem,
      ¬ rtreeRejected radius pts c →
      fetch (rtreePeriods dates) c = false →
      RtreeRun radius fetch dates rest (pts ++ [c] ++ [c]) center pts2 rem →
      RtreeRun radius fetch dates (c :: rest) pts center pts2 rem
  | reject_ok : ∀ c rest pts center1 pts1 rem1,
      rtreeRejected radius pts c →
      RtreeRun radius fetch dates rest pts center1 pts1 rem1 →
      fetch (rtreePeriods dates) c = true →
      RtreeRun radius fetch dates (c :: rest) pts c pts1 rem1
  | reject_fail : ∀ c rest pts center1 pts1 rem1 center2 pts2 rem2,
      rtreeRejected radius pts c →
      RtreeRun radius fetch dates rest pts center1 pts1 rem1 →
      fetch (rtreePeriods dates) c = false →
      RtreeRun radius fetch dates rem1 (pts1 ++ [c]) center2 pts2 rem2 →
      RtreeRun radius fetch dates (c :: rest) pts center2 pts2 rem2

/-- Big-step relation for get_random_patches_grid, built like
RtreeRun.  Differences faithful to the source: on the accept path the
candidate is added to its bucket once (and not re-added by the
download failure handler), and on the reject path the failure handler
retries without inserting the rejected candidate. -/
inductive GridRun (radius : ℚ) (fetch : List Period → ℚ × ℚ → Bool) (dates : List ℤ) :
    List (ℚ × ℚ) → List (ℚ × ℚ) → ℚ × ℚ → List (ℚ × ℚ) → List (ℚ × ℚ) → Prop where
  | accept_ok : ∀ c rest pts,
      ¬ gridRejected radius pts c →
      fetch (gridPeriods dates) c = true →
      GridRun radius fetch dates (c :: rest) pts c (pts ++ [c]) rest
  | accept_fail : ∀ c rest pts center pts2 rem,
      ¬ gridRejected radius pts c →
      fetch (gridPeriods dates) c = false →
      GridRun radius fetch dates rest (pts ++ [c]) center pts2 rem →
      GridRun radius fetch dates (c :: rest) pts center pts2 rem
  | reject_ok : ∀ c rest pts center1 pts1 rem1,
      gridRejected radius pts c →
      GridRun radius fetch dates rest pts center1 pts1 rem1 →
      fetch (gridPeriods dates) c = true →
      GridRun radius fetch dates (c :: rest) pts c pts1 rem1
  | reject_fail : ∀ c rest pts center1 pts1 rem1 center2 pts2 rem2,
      gridRejected radius pts c →
      GridRun radius fetch dates rest pts center1 pts1 rem1 →
      fetch (gridPeriods dates) c = false →
      GridRun radius fetch dates rem1 pts1 center2 pts2 rem2 →
      GridRun radius fetch dates (c :: rest) pts center2 pts2 rem2

/-- One checkpoint CSV row (index, longitude, latitude, status). -/
structure LedgerRecord where
  idx : ℤ
  lon : ℚ
  lat : ℚ
  status : ℤ
  deriving DecidableEq

/-- The record the worker appends for a processed index: the final
center coordinate returned by the get_random_patches call, and status
2 for a matched success, 1 for a sampled success, 0 for a failure
(patches is None). -/
def workerRecord (matchFile : Bool) (result : Option Unit × (ℚ × ℚ)) (idx : ℤ) :
    LedgerRecord :=
  ⟨idx, result.2.1, result.2.2,
    match result.1 with
    | some _ => if matchFile then 2 else 1
    | none => 0⟩

/-- The worker closure: the resume skip check, then the per-index
pipeline.  The outcome of the get_random_patches call is passed in as
result (the obtained patches as an Option, and the returned
center_coord); extFlags is the status column of the ledger loaded at
resume.  The value none means the worker returned without processing
(skip); some r means the index was processed and exactly the record r
was appended to the checkpoint file. -/
def worker (matchFile : Bool) (extFlags : ℤ → Option ℤ)
    (result : Option Unit × (ℚ × ℚ)) (idx : ℤ) : Option LedgerRecord :=
  match extFlags idx with
  | some flag =>
      if matchFile then none
      else if flag ≠ 0 then none
      else some (workerRecord matchFile result idx)
  | none => some (workerRecord matchFile result idx)

/- ------------------------------------------------------------------ -/
/- Helper lemmas                                                       -/
/- ------------------------------------------------------------------ -/

theorem deg2km_nonneg {d : ℝ} (hd : 0 ≤ d) : 0 ≤ deg2km d := by
  unfold deg2km
  have hpi : (0 : ℝ) ≤ 2 * 6371 * Real.pi / 360 := by positivity
  exact mul_nonneg hd hpi

theorem kmDist_horiz (a b lat : ℚ) :
    kmDist (a, lat) (b, lat) = deg2km |(a : ℝ) - (b : ℝ)| := by
  unfold kmDist
  have h0 : deg2km |((lat : ℚ) : ℝ) - ((lat : ℚ) : ℝ)| = 0 := by simp [deg2km]
  simp only [h0]
  rw [show (0 : ℝ) ^ 2 = 0 by norm_num, add_zero]
  exact Real.sqrt_sq (deg2km_nonneg (abs_nonneg _))

theorem kmDist_self (a b : ℚ) : kmDist (a, b) (a, b) = 0 := by
  rw [kmDist_horiz]
  simp [deg2km]

theorem tooClose_zero : tooClose 1320 ((0 : ℚ), (0 : ℚ)) ((0 : ℚ), (0 : ℚ)) := by
  unfold tooClose
  rw [kmDist_self]
  norm_num

theorem not_tooClose_far : ¬ tooClose 1320 ((0 : ℚ), (0 : ℚ)) ((50 : ℚ), (0 : ℚ)) := by
  unfold tooClose
  rw [kmDist_horiz]
  have habs : |((0 : ℚ) : ℝ) - ((50 : ℚ) : ℝ)| = 50 := by norm_num
  rw [habs]
  unfold deg2km
  push_cast
  intro h
  linarith [Real.pi_gt_three]

theorem tooClose_near :
    tooClose 1320 ((-1 / 10000 : ℚ), (0 : ℚ)) ((1 / 10000 : ℚ), (0 : ℚ)) := by
  unfold tooClose
  rw [kmDist_horiz]
  have habs : |((-1 / 10000 : ℚ) : ℝ) - ((1 / 10000 : ℚ) : ℝ)| = 1 / 5000 := by
    rw [abs_sub_comm]
    norm_num
  rw [habs]
  unfold deg2km
  push_cast
  linarith [Real.pi_lt_d2]

theorem rtreeRejected_nil (radius : ℚ) (c : ℚ × ℚ) : ¬ rtreeRejected radius [] c := by
  rintro ⟨p, hp, -⟩
  exact (List.not_mem_nil p) hp

theorem gridRejected_nil (radius : ℚ) (c : ℚ × ℚ) : ¬ gridRejected radius [] c := by
  rintro ⟨p, hp, -⟩
  exact (List.not_mem_nil p) hp

theorem rtreeRejected_far (pts : List (ℚ × ℚ)) (hpts : ∀ p ∈ pts, p = ((0 : ℚ), (0 : ℚ))) :
    ¬ rtreeRejected 1320 pts ((50 : ℚ), (0 : ℚ)) := by
  rintro ⟨p, hp, -, hclose⟩
  rw [hpts p hp] at hclose
  exact not_tooClose_far hclose

theorem rtreeRejected_dup : rtreeRejected 1320 [((0 : ℚ), (0 : ℚ))] ((0 : ℚ), (0 : ℚ)) :=
  ⟨(0, 0), by simp, fun q hq => by rw [List.mem_singleton] at hq; rw [hq], tooClose_zero⟩

theorem gridNotRejected_far : ¬ gridRejected 1320 [((0 : ℚ), (0 : ℚ))] ((50 : ℚ), (0 : ℚ)) := by
  rintro ⟨p, hp, hk, -⟩
  rw [List.mem_singleton] at hp
  subst hp
  revert hk
  norm_num [gridKey]

/- ------------------------------------------------------------------ -/
/- Claim theorems                                                      -/
/- ------------------------------------------------------------------ -/

/-- C4: for a rectangular image of height img.length and row width W
and a target (ch, cw) with ch at most the height and cw at most the
width, center_crop returns an array of shape (ch, cw) whose entry
(i, j) is the source entry (t + i, l + j) for the floor offsets
t = (H - ch + 1) / 2 and l = (W - cw + 1) / 2 (so the extra pixel of
an odd margin sits on the top/left); in particular a (132, 132) source
with target (44, 44) uses offset 44, and a crop of the full size is
the identity. -/
theorem center_crop_spec {α : Type} (img : List (List α)) (W ch cw : ℕ)
    (hW : ∀ r ∈ img, r.length = W) (hch : ch ≤ img.length) (hcw : cw ≤ W) :
    (center_crop img (ch, cw)).length = ch
    ∧ (∀ r ∈ center_crop img (ch, cw), r.length = cw)
    ∧ (∀ i j, i < ch → j < cw →
        (center_crop img (ch, cw))[i]?.bind (fun r => r[j]?)
          = img[(img.length - ch + 1) / 2 + i]?.bind
              (fun r => r[(W - cw + 1) / 2 + j]?))
    ∧ (132 - 44 + 1) / 2 = 44
    ∧ (ch = img.length → cw = W → center_crop img (ch, cw) = img) := by
  by_cases hnil : img = []
  · subst hnil
    have hch0 : ch = 0 := Nat.le_zero.mp hch
    subst hch0
    refine ⟨rfl, ?_, ?_, by norm_num, fun _ _ => rfl⟩
    · intro r hr
      simp [center_crop] at hr
    · intro i j hi _
      exact absurd hi (Nat.not_lt_zero i)
  · have hhead : (img.headD []).length = W := by
      cases img with
      | nil => exact absurd rfl hnil
      | cons r l => exact hW r (by simp)
    have hcc : center_crop img (ch, cw)
        = ((img.drop ((img.length - ch + 1) / 2)).take ch).map
            (fun row => (row.drop ((W - cw + 1) / 2)).take cw) := by
      simp only [center_crop]
      rw [hhead]
    have ht : (img.length - ch + 1) / 2 + ch ≤ img.length := by omega
    refine ⟨?_, ?_, ?_, by norm_num, ?_⟩
    · rw [hcc, List.length_map, List.length_take, List.length_drop]
      exact min_eq_left (by omega)
    · intro r hr
      rw [hcc] at hr
      rcases List.mem_map.1 hr with ⟨row, hrow, rfl⟩
      have hmem : row ∈ img := List.mem_of_mem_drop (List.mem_of_mem_take hrow)
      rw [List.length_take, List.length_drop, hW row hmem]
      exact min_eq_left (by omega)
    · intro i j hi hj
      have hti : (img.length - ch + 1) / 2 + i < img.length := by omega
      rw [hcc, List.getElem?_map, List.getElem?_take, if_pos hi, List.getElem?_drop,
        List.getElem?_eq_getElem hti]
      have hrl : (img[(img.length - ch + 1) / 2 + i]).length = W :=
        hW _ (List.getElem_mem hti)
      simp only [Option.map_some', Option.some_bind]
      rw [List.getElem?_take, if_pos hj, List.getElem?_drop]
    · intro h1 h2
      rw [hcc]
      have ht0 : (img.length - ch + 1) / 2 = 0 := by omega
      have hl0 : (W - cw + 1) / 2 = 0 := by omega
      rw [ht0, hl0, List.drop_zero, h1, List.take_length]
      have hid : ∀ r ∈ img, (fun row => (List.take cw (List.drop 0 row))) r = id r :=
        fun r hr => by
          show (r.drop 0).take cw = r
          rw [List.drop_zero, h2, ← hW r hr, List.take_length]
      rw [List.map_congr_left hid, List.map_id]

/-- C4 witness: a concrete 3 by 3 image cropped to 2 by 2. -/
theorem center_crop_spec_witness :
    ((∀ r ∈ [[1, 2, 3], [4, 5, 6], [7, 8, 9]], r.length = 3)
      ∧ (2 : ℕ) ≤ 3 ∧ (2 : ℕ) ≤ 3)
    ∧ ((center_crop [[1, 2, 3], [4, 5, 6], [7, 8, 9]] (2, 2)).length = 2
       ∧ (center_crop [[1, 2, 3], [4, 5, 6], [7, 8, 9]] (2, 2))[0]?.bind (fun r => r[1]?)
           = [[1, 2, 3], [4, 5, 6], [7, 8, 9]][(3 - 2 + 1) / 2 + 0]?.bind
               (fun r => r[(3 - 2 + 1) / 2 + 1]?)) := by
  have h := center_crop_spec [[1, 2, 3], [4, 5, 6], [7, 8, 9]] 3 2 2
    (by decide) (by decide) (by decide)
  exact ⟨⟨by decide, by decide, by decide⟩, h.1, h.2.2.1 0 1 (by decide) (by decide)⟩

/-- C5: recomputing the per-pixel resolutions from the output of
adjust_coords over the new size gives back exactly (in rational
arithmetic) the per-pixel resolutions of the input box over the old
size, for any box and any sizes with 0 < new and new at most old
componentwise. -/
theorem adjust_coords_roundtrip (coords : (ℚ × ℚ) × (ℚ × ℚ)) (old_size new_size : ℕ × ℕ)
    (h1 : 0 < new_size.1) (h2 : 0 < new_size.2)
    (h3 : new_size.1 ≤ old_size.1) (h4 : new_size.2 ≤ old_size.2) :
    ((adjust_coords coords old_size new_size).2.1
        - (adjust_coords coords old_size new_size).1.1) / (new_size.2 : ℚ)
      = (coords.2.1 - coords.1.1) / (old_size.2 : ℚ)
    ∧ ((adjust_coords coords old_size new_size).1.2
        - (adjust_coords coords old_size new_size).2.2) / (new_size.1 : ℚ)
      = (coords.1.2 - coords.2.2) / (old_size.1 : ℚ) := by
  have hn1 : ((new_size.1 : ℚ)) ≠ 0 := Nat.cast_ne_zero.mpr h1.ne'
  have hn2 : ((new_size.2 : ℚ)) ≠ 0 := Nat.cast_ne_zero.mpr h2.ne'
  have ho1 : ((old_size.1 : ℚ)) ≠ 0 := Nat.cast_ne_zero.mpr (lt_of_lt_of_le h1 h3).ne'
  have ho2 : ((old_size.2 : ℚ)) ≠ 0 := Nat.cast_ne_zero.mpr (lt_of_lt_of_le h2 h4).ne'
  unfold adjust_coords
  constructor
  · field_simp
    ring
  · field_simp
    ring

/-- C5 witness: a concrete instance of adjust_coords_roundtrip. -/
theorem adjust_coords_roundtrip_witness :
    ((0 : ℕ) < 4 ∧ (0 : ℕ) < 6 ∧ (4 : ℕ) ≤ 10 ∧ (6 : ℕ) ≤ 12)
    ∧ (((adjust_coords ((0, 10), (24, 0)) (10, 12) (4, 6)).2.1
          - (adjust_coords ((0, 10), (24, 0)) (10, 12) (4, 6)).1.1) / ((6 : ℕ) : ℚ)
        = ((24 : ℚ) - 0) / ((12 : ℕ) : ℚ)
      ∧ ((adjust_coords ((0, 10), (24, 0)) (10, 12) (4, 6)).1.2
          - (adjust_coords ((0, 10), (24, 0)) (10, 12) (4, 6)).2.2) / ((4 : ℕ) : ℚ)
        = ((10 : ℚ) - 0) / ((10 : ℕ) : ℚ)) :=
  ⟨by norm_num,
   adjust_coords_roundtrip ((0, 10), (24, 0)) (10, 12) (4, 6)
     (by norm_num) (by norm_num) (by norm_num) (by norm_num)⟩

/-- C6: get_period moves the reference date by the whole-day part of
half the window width, in both directions, and repeats the window one
year (365 days) earlier; for reference date 2021-12-21 and width 60
days the four formatted dates are 2021-11-21, 2022-01-20, 2020-11-21
and 2021-01-20. -/
theorem get_period_spec :
    (∀ (d : ℤ) (w : ℕ),
      get_period d w = ⟨d - (w / 2 : ℕ), d + (w / 2 : ℕ), d - (w / 2 : ℕ) - 365,
        d + (w / 2 : ℕ) - 365⟩)
    ∧ get_period_str (daysFromCivil 2021 12 21) 60
        = ("2021-11-21", "2022-01-20", "2020-11-21", "2021-01-20") :=
  ⟨fun _ _ => rfl, by decide⟩

/-- C10: the grid sampler builds its catalog date windows with total
width 30 days (reference date plus or minus 15 days, and the same
window one year earlier), while the rtree sampler and match mode use
total width 60 days (plus or minus 30), so identical reference dates
give the two sample modes different query windows. -/
theorem period_width_spec (d : ℤ) (dates : List ℤ) :
    gridPeriods [d] = [⟨d - 15, d + 15, d - 15 - 365, d + 15 - 365⟩]
    ∧ rtreePeriods [d] = [⟨d - 30, d + 30, d - 30 - 365, d + 30 - 365⟩]
    ∧ matchPeriods dates = rtreePeriods dates
    ∧ (get_period d 30).date2 - (get_period d 30).date1 = 30
    ∧ (get_period d 60).date2 - (get_period d 60).date1 = 60
    ∧ get_period d 30 ≠ get_period d 60 := by
  refine ⟨?_, ?_, rfl, ?_, ?_, ?_⟩
  · simp only [gridPeriods, get_period, List.map_cons, List.map_nil, List.cons.injEq,
      and_true, Period.mk.injEq]
    refine ⟨?_, ?_, ?_, ?_⟩ <;> omega
  · simp only [rtreePeriods, get_period, List.map_cons, List.map_nil, List.cons.injEq,
      and_true, Period.mk.injEq]
    refine ⟨?_, ?_, ?_, ?_⟩ <;> omega
  · simp only [get_period]
    omega
  · simp only [get_period]
    omega
  · intro h
    have h1 := congrArg Period.date1 h
    simp only [get_period] at h1
    omega

/-- C2: with a ledger record already loaded for the index, the worker
in match mode returns without processing regardless of the recorded
status, and in sample mode returns without processing exactly when the
recorded status is nonzero (hence reprocesses when it is 0). -/
theorem worker_skip_spec (extFlags : ℤ → Option ℤ) (result : Option Unit × (ℚ × ℚ))
    (idx flag : ℤ) (h : extFlags idx = some flag) :
    worker true extFlags result idx = none
    ∧ (worker false extFlags result idx = none ↔ flag ≠ 0) := by
  unfold worker
  rw [h]
  refine ⟨rfl, ?_⟩
  by_cases hf : flag = 0
  · simp [hf]
  · simp [hf]

/-- C2 witness: concrete instance with a recorded status of 0. -/
theorem worker_skip_spec_witness :
    ((fun _ : ℤ => some (0 : ℤ)) 7 = some 0)
    ∧ (worker true (fun _ : ℤ => some (0 : ℤ)) (none, ((0 : ℚ), (0 : ℚ))) 7 = none
       ∧ (worker false (fun _ : ℤ => some (0 : ℤ)) (none, ((0 : ℚ), (0 : ℚ))) 7 = none
            ↔ (0 : ℤ) ≠ 0)) :=
  ⟨rfl, worker_skip_spec (fun _ => some 0) (none, (0, 0)) 7 0 rfl⟩

/-- C8: a worker invocation that is not skipped appends exactly one
ledger record, carrying the index, the center coordinate returned by
the get_random_patches call, and status 0 when no patches were
obtained, 1 on success in sample mode, 2 on success in match mode. -/
theorem worker_append_spec (matchFile : Bool) (extFlags : ℤ → Option ℤ)
    (result : Option Unit × (ℚ × ℚ)) (idx : ℤ)
    (h : worker matchFile extFlags result idx ≠ none) :
    worker matchFile extFlags result idx
      = some ⟨idx, result.2.1, result.2.2,
          match result.1 with
          | some _ => if matchFile then 2 else 1
          | none => 0⟩ := by
  cases hf : extFlags idx with
  | none => simp [worker, hf, workerRecord]
  | some flag =>
      by_cases hm : matchFile
      · simp [worker, hf, hm] at h
      · by_cases hz : flag ≠ 0
        · simp [worker, hf, hm, hz] at h
        · simp [worker, hf, hm, hz, workerRecord]

/-- C8 witness: a non-skipped sampled success records status 1 and the
returned coordinate. -/
theorem worker_append_spec_witness :
    worker false (fun _ : ℤ => none) (some (), ((3 : ℚ), (4 : ℚ))) 9
      = some ⟨9, 3, 4, 1⟩ :=
  worker_append_spec false (fun _ => none) (some (), (3, 4)) 9 (by decide)

/-- C7: filter_collection raises the NoSuitableImage error exactly
when the collection filtered by the Or of the two date subranges of
the window and by spatial containment of the coordinate is empty, and
otherwise returns that (nonempty) filtered collection unchanged. -/
theorem filter_collection_spec (collection : List Scene) (coords : ℚ × ℚ)
    (period : Option Period) :
    (filter_collection collection coords period
        = Except.error EEException.noSuitableImage
      ↔ collection.filter (sceneMatches period coords) = [])
    ∧ (collection.filter (sceneMatches period coords) ≠ [] →
        filter_collection collection coords period
          = Except.ok (collection.filter (sceneMatches period coords))) := by
  have key : (match period with
      | some p => collection.filter (fun (s : Scene) => inDateWindow p s.time)
      | none => collection).filter (fun s => s.containsPt coords)
      = collection.filter (sceneMatches period coords) := by
    cases period with
    | none => exact List.filter_congr (fun s _ => by simp [sceneMatches])
    | some p =>
        rw [List.filter_filter]
        exact List.filter_congr (fun s _ => by simp [sceneMatches, Bool.and_comm])
  have main : filter_collection collection coords period
      = if (collection.filter (sceneMatches period coords)).length = 0
        then Except.error EEException.noSuitableImage
        else Except.ok (collection.filter (sceneMatches period coords)) := by
    simp only [filter_collection]
    rw [key]
  constructor
  · rw [main]
    by_cases h : collection.filter (sceneMatches period coords) = []
    · simp [h]
    · have hlen : (collection.filter (sceneMatches period coords)).length ≠ 0 := by
        simpa [List.length_eq_zero] using h
      simp [if_neg hlen, h]
  · intro h
    have hlen : (collection.filter (sceneMatches period coords)).length ≠ 0 := by
      simpa [List.length_eq_zero] using h
    rw [main, if_neg hlen]

/-- C7 witness: a singleton collection whose scene lies in the first
date subrange and contains the point is returned unchanged. -/
theorem filter_collection_spec_witness :
    filter_collection [⟨0, fun _ => true⟩] ((0 : ℚ), (0 : ℚ)) (some ⟨-1, 1, -367, -366⟩)
      = Except.ok (([⟨0, fun _ => true⟩] : List Scene).filter
          (sceneMatches (some ⟨-1, 1, -367, -366⟩) ((0 : ℚ), (0 : ℚ)))) :=
  (filter_collection_spec [⟨0, fun _ => true⟩] ((0 : ℚ), (0 : ℚ))
      (some ⟨-1, 1, -367, -366⟩)).2 (by
    intro h
    rw [show (([⟨0, fun _ => true⟩] : List Scene).filter
        (sceneMatches (some ⟨-1, 1, -367, -366⟩) ((0 : ℚ), (0 : ℚ))))
        = [⟨0, fun _ => true⟩] from rfl] at h
    cases h)

/-- C1 evaluation of the code at the failing input: radius 1320 m,
every download succeeding.  A first call accepts and returns the
center (0, 0).  A second call samples the candidate (0, 0), which the
overlap check rejects (distance 0 km, below the 1.98 km threshold) and
the recursive retry accepts (50, 0); but the body then falls through
the OverlapError handler, downloads the rejected candidate anyway and
returns (0, 0) as center_coord, at distance 0 km from the previously
returned center, violating the claimed pairwise minimum separation of
returned center coordinates. -/
theorem rtree_overlap_violation :
    RtreeRun 1320 (fun _ _ => true) [0] [((0 : ℚ), (0 : ℚ))] [] (0, 0) [(0, 0)] []
    ∧ RtreeRun 1320 (fun _ _ => true) [0] [((0 : ℚ), (0 : ℚ)), ((50 : ℚ), (0 : ℚ))]
        [(0, 0)] (0, 0) [(0, 0), (50, 0)] []
    ∧ tooClose 1320 ((0 : ℚ), (0 : ℚ)) ((0 : ℚ), (0 : ℚ)) := by
  refine ⟨?_, ?_, tooClose_zero⟩
  · exact RtreeRun.accept_ok (0, 0) [] [] (rtreeRejected_nil 1320 (0, 0)) rfl
  · exact RtreeRun.reject_ok (0, 0) [((50 : ℚ), (0 : ℚ))] [((0 : ℚ), (0 : ℚ))] (50, 0)
      [(0, 0), (50, 0)] [] rtreeRejected_dup
      (RtreeRun.accept_ok (50, 0) [] [((0 : ℚ), (0 : ℚ))]
        (rtreeRejected_far [((0 : ℚ), (0 : ℚ))] (by decide)) rfl) rfl

/-- C3: the grid overlap check compares the candidate only against
stored points with the same 1-degree bucket key: when every stored
point lies in a different bucket, the candidate is never rejected and
(given a successful download) is accepted, returned and inserted, even
when some stored point is closer than the separation threshold. -/
theorem grid_cross_bucket_accept (radius : ℚ) (fetch : List Period → ℚ × ℚ → Bool)
    (dates : List ℤ) (pts : List (ℚ × ℚ)) (c : ℚ × ℚ) (rest : List (ℚ × ℚ))
    (hkey : ∀ p ∈ pts, gridKey p ≠ gridKey c)
    (_hclose : ∃ p ∈ pts, tooClose radius p c)
    (hfetch : fetch (gridPeriods dates) c = true) :
    ¬ gridRejected radius pts c
    ∧ GridRun radius fetch dates (c :: rest) pts c (pts ++ [c]) rest := by
  have hnr : ¬ gridRejected radius pts c := by
    rintro ⟨p, hp, hk, -⟩
    exact hkey p hp hk
  exact ⟨hnr, GridRun.accept_ok c rest pts hnr hfetch⟩

/-- C3 witness: two points 0.0002 degrees of longitude apart (about
0.022 km, far below the 1.98 km threshold for radius 1320 m) fall in
the buckets (179, 90) and (180, 90), so the candidate is accepted. -/
theorem grid_cross_bucket_accept_witness :
    ¬ gridRejected 1320 [((-1 / 10000 : ℚ), (0 : ℚ))] ((1 / 10000 : ℚ), (0 : ℚ))
    ∧ GridRun 1320 (fun _ _ => true) [0] [((1 / 10000 : ℚ), (0 : ℚ))]
        [((-1 / 10000 : ℚ), (0 : ℚ))] ((1 / 10000 : ℚ), (0 : ℚ))
        [((-1 / 10000 : ℚ), (0 : ℚ)), ((1 / 10000 : ℚ), (0 : ℚ))] [] :=
  grid_cross_bucket_accept 1320 (fun _ _ => true) [0] [((-1 / 10000 : ℚ), (0 : ℚ))]
    ((1 / 10000 : ℚ), (0 : ℚ)) []
    (by norm_num [gridKey])
    ⟨((-1 / 10000 : ℚ), (0 : ℚ)), by simp, tooClose_near⟩
    rfl

/-- C9: in both sample variants, whenever a candidate that passed the
overlap check has its download fail, the candidate coordinate is in
the index state handed to the recursive retry (the rtree variant
inserts it at acceptance and a second time in the failure handler, the
grid variant at acceptance). -/
theorem failed_fetch_burns_slot (radius : ℚ) (fetch : List Period → ℚ × ℚ → Bool)
    (dates : List ℤ) (c : ℚ × ℚ) (rest pts : List (ℚ × ℚ)) (center : ℚ × ℚ)
    (pts2 rem : List (ℚ × ℚ)) (c2 : ℚ × ℚ) (rest2 pts3 : List (ℚ × ℚ))
    (center2 : ℚ × ℚ) (pts4 rem2 : List (ℚ × ℚ))
    (h1 : RtreeRun radius fetch dates (c :: rest) pts center pts2 rem)
    (h2 : ¬ rtreeRejected radius pts c)
    (h3 : fetch (rtreePeriods dates) c = false)
    (h4 : GridRun radius fetch dates (c2 :: rest2) pts3 center2 pts4 rem2)
    (h5 : ¬ gridRejected radius pts3 c2)
    (h6 : fetch (gridPeriods dates) c2 = false) :
    (∃ st, c ∈ st ∧ RtreeRun radius fetch dates rest st center pts2 rem)
    ∧ (∃ st, c2 ∈ st ∧ GridRun radius fetch dates rest2 st center2 pts4 rem2) := by
  constructor
  · cases h1 with
    | accept_ok _ _ _ hna hf =>
        rw [h3] at hf
        exact Bool.noConfusion hf
    | accept_fail _ _ _ _ _ _ hna hf hrec =>
        exact ⟨pts ++ [c] ++ [c], by simp, hrec⟩
    | reject_ok _ _ _ _ _ _ hrej hrun hf =>
        exact absurd hrej h2
    | reject_fail _ _ _ _ _ _ _ _ _ hrej hrun1 hf hrun2 =>
        exact absurd hrej h2
  · cases h4 with
    | accept_ok _ _ _ hna hf =>
        rw [h6] at hf
        exact Bool.noConfusion hf
    | accept_fail _ _ _ _ _ _ hna hf hrec =>
        exact ⟨pts3 ++ [c2], by simp, hrec⟩
    | reject_ok _ _ _ _ _ _ hrej hrun hf =>
        exact absurd hrej h5
    | reject_fail _ _ _ _ _ _ _ _ _ hrej hrun1 hf hrun2 =>
        exact absurd hrej h5

/-- C9 witness: with downloads failing at longitude 0 and succeeding
at longitude 50, both samplers accept (0, 0), fail its download, and
retry with (0, 0) already stored in the index. -/
theorem failed_fetch_burns_slot_witness :
    (∃ st, ((0 : ℚ), (0 : ℚ)) ∈ st
      ∧ RtreeRun 1320 (fun (_ : List Period) (p : ℚ × ℚ) => decide (p.1 = 50)) [0]
          [((50 : ℚ), (0 : ℚ))] st (50, 0) [(0, 0), (0, 0), (50, 0)] [])
    ∧ (∃ st, ((0 : ℚ), (0 : ℚ)) ∈ st
      ∧ GridRun 1320 (fun (_ : List Period) (p : ℚ × ℚ) => decide (p.1 = 50)) [0]
          [((50 : ℚ), (0 : ℚ))] st (50, 0) [(0, 0), (50, 0)] []) :=
  failed_fetch_burns_slot 1320 (fun (_ : List Period) (p : ℚ × ℚ) => decide (p.1 = 50)) [0]
    (0, 0) [((50 : ℚ), (0 : ℚ))] [] (50, 0) [(0, 0), (0, 0), (50, 0)] []
    (0, 0) [((50 : ℚ), (0 : ℚ))] [] (50, 0) [(0, 0), (50, 0)] []
    (RtreeRun.accept_fail (0, 0) [((50 : ℚ), (0 : ℚ))] [] (50, 0)
      [(0, 0), (0, 0), (50, 0)] []
      (rtreeRejected_nil 1320 (0, 0)) (by decide)
      (RtreeRun.accept_ok (50, 0) [] [((0 : ℚ), (0 : ℚ)), ((0 : ℚ), (0 : ℚ))]
        (rtreeRejected_far [((0 : ℚ), (0 : ℚ)), ((0 : ℚ), (0 : ℚ))] (by decide))
        (by decide)))
    (rtreeRejected_nil 1320 (0, 0)) (by decide)
    (GridRun.accept_fail (0, 0) [((50 : ℚ), (0 : ℚ))] [] (50, 0) [(0, 0), (50, 0)] []
      (gridRejected_nil 1320 (0, 0)) (by decide)
      (GridRun.accept_ok (50, 0) [] [((0 : ℚ), (0 : ℚ))] gridNotRejected_far (by decide)))
    (gridRejected_nil 1320 (0, 0)) (by decide)

end SSL4EO
